import Mathlib

/-!
Session orchestrator: `pkg/auth/handle.go`

A shallow embedding of the two HTTP handlers of `pkg/auth/handle.go`,
`Handle.PostToken` (issue session) and `Handle.PutPassword` (rotate password),
followed by the properties proved about them.

Modelling conventions.

* A Go multiple return `(v, err)` is a pair `v × Option GoError`; `none` is the
  `nil` error.  A returned value that the handler ignores when `err != nil` is
  still part of the pair.
* A `*login.AuthUser` is an `Option login.AuthUser`; `none` is the nil pointer.
* The collaborators (`auth.Jwt`, `*AuthLoginService`) are arbitrary state
  transformers over a collaborator state `σ`; the handlers thread that state
  in program order.  Every invocation of a collaborator method is appended to
  `World.calls`, and every `slog` call to `World.log`.
* `http.ResponseWriter` is the list of `Set-Cookie` header lines added so far,
  each in structured form.  `http.SetCookie` follows `net/http`: a cookie whose
  name is not a valid cookie name adds no header, bytes that are not allowed in
  a cookie value or path are dropped, and `Expires` is written only for a year
  from 1601 on.
* A handler returns a `Result`: the `*Response` (or `none` when the handler
  panics on a nil pointer dereference), the response writer and the world
  after the call.
-/

/-! ## Standard library and third-party types -/

/-- Go's `error` interface, observed through its `Error()` method. -/
structure GoError where
  Error : String
  deriving DecidableEq, Repr

namespace time

/-- An instant with its location (`time.Time`), to the second: `unix` is the
number of seconds since 1970-01-01T00:00:00Z and `offset` is the offset of the
time's location east of UTC at that instant, in seconds. -/
structure Time where
  unix : Int
  offset : Int
  deriving DecidableEq, Repr

/-- The test `t.Year() >= 1601`: the year is read in the time's own location,
and 1601-01-01T00:00:00 is 11644473600 seconds before 1970-01-01T00:00:00. -/
def Time.yearAtLeast1601 (t : Time) : Bool :=
  decide (-11644473600 ≤ t.unix + t.offset)

end time

namespace http

def StatusOK : Nat := 200
def StatusBadRequest : Nat := 400
def StatusUnauthorized : Nat := 401
def StatusInternalServerError : Nat := 500

/-- The entries of `http.StatusText` for the status codes used by the handlers;
every other code is mapped to the empty string here. -/
def StatusText (code : Nat) : String :=
  match code with
  | 200 => "OK"
  | 400 => "Bad Request"
  | 401 => "Unauthorized"
  | 500 => "Internal Server Error"
  | _ => ""

/-- The modes of `http.SameSite`. -/
inductive SameSite where
  | SameSiteDefaultMode
  | SameSiteLaxMode
  | SameSiteStrictMode
  | SameSiteNoneMode
  deriving DecidableEq, Repr

/-- The fields of `http.Cookie` that `setTokenCookie` fills in. -/
structure Cookie where
  Name : String
  Path : String
  Value : String
  Expires : time.Time
  HttpOnly : Bool
  Secure : Bool
  SameSite : SameSite
  deriving DecidableEq, Repr

/-- One `Set-Cookie` header line as `Cookie.String` writes it, field by field:
`Name=Value`, the value inside double quotes when `Quoted`; `Path` when the
attribute is written; `Expires` (the instant, formatted in UTC) when the
attribute is written; the `HttpOnly` and `Secure` flags; and `SameSite`, where
`SameSiteDefaultMode` stands for the attribute being left out. -/
structure SetCookieHeader where
  Name : String
  Value : String
  Quoted : Bool
  Path : Option String
  Expires : Option Int
  HttpOnly : Bool
  Secure : Bool
  SameSite : SameSite
  deriving DecidableEq, Repr

/-- The response writer, as the `Set-Cookie` header lines added so far. -/
structure ResponseWriter where
  cookies : List SetCookieHeader
  deriving DecidableEq, Repr

/-- The token characters of `httpguts.IsTokenRune`: the ASCII letters and
digits and the fifteen punctuation characters of an HTTP token. -/
def isTokenRune (c : Char) : Bool :=
  decide (48 ≤ c.toNat ∧ c.toNat ≤ 57) || decide (65 ≤ c.toNat ∧ c.toNat ≤ 90) ||
    decide (97 ≤ c.toNat ∧ c.toNat ≤ 122) ||
    decide (c.toNat ∈ [33, 35, 36, 37, 38, 39, 42, 43, 45, 46, 94, 95, 96, 124, 126])

/-- The test `isCookieNameValid`: the name is not empty and every character is
a token character. -/
def isCookieNameValid (raw : String) : Bool :=
  !raw.data.isEmpty && raw.data.all isTokenRune

/-- The test `validCookieValueByte`: printable ASCII other than the double
quote (34), the semicolon (59) and the backslash (92). -/
def validCookieValueByte (b : Char) : Bool :=
  decide (32 ≤ b.toNat ∧ b.toNat < 127 ∧ b.toNat ≠ 34 ∧ b.toNat ≠ 59 ∧ b.toNat ≠ 92)

/-- The test `validCookiePathByte`: printable ASCII other than the semicolon. -/
def validCookiePathByte (b : Char) : Bool :=
  decide (32 ≤ b.toNat ∧ b.toNat < 127 ∧ b.toNat ≠ 59)

/-- The function `sanitizeOrWarn`: the bytes that are not valid are dropped.  A
character outside ASCII is a run of bytes above 127, none of them valid. -/
def sanitizeOrWarn (valid : Char → Bool) (v : String) : String :=
  String.mk (v.data.filter valid)

/-- Whether `sanitizeCookieValue` wraps the sanitized value in double quotes:
it does when the value contains a space (32) or a comma (44). -/
def needsQuotes (v : String) : Bool :=
  v.data.any (fun c => decide (c.toNat = 32 ∨ c.toNat = 44))

/-- The test `validCookieExpires`. -/
def validCookieExpires (t : time.Time) : Bool :=
  t.yearAtLeast1601

/-- The method `Cookie.String`, for a cookie whose name is valid: the header
line it writes.  The value and the path are sanitized, the path is written
when it is not empty, and `Expires` is written when the year is valid. -/
def Cookie.header (c : Cookie) : SetCookieHeader :=
  { Name := c.Name
    Value := sanitizeOrWarn validCookieValueByte c.Value
    Quoted := needsQuotes (sanitizeOrWarn validCookieValueByte c.Value)
    Path := if c.Path.data.isEmpty then none else some (sanitizeOrWarn validCookiePathByte c.Path)
    Expires := if validCookieExpires c.Expires then some c.Expires.unix else none
    HttpOnly := c.HttpOnly
    Secure := c.Secure
    SameSite := c.SameSite }

/-- The call `http.SetCookie(w, cookie)`: `Cookie.String` is empty when the
cookie name is not valid, and then no header is added; otherwise one
`Set-Cookie` header is added to `w`. -/
def SetCookie (w : ResponseWriter) (cookie : Cookie) : ResponseWriter :=
  if isCookieNameValid cookie.Name then { cookies := w.cookies ++ [cookie.header] }
  else w

end http

namespace login

/-- A user identifier (`uuid.UUID`). -/
abbrev UUID := String

/-- Modelled from the spec: `login.AuthUser` is declared in `pkg/login`, which is
not part of the sources at hand.  Section 3 describes the identity as an immutable
reference to an authenticated principal, a unique user identifier;
`handle.go` reads only its `UserUUID` field. -/
structure AuthUser where
  UserUUID : UUID
  deriving DecidableEq, Repr

end login

/-- The dynamic value stored in the request context under `login.AuthUserKey`:
nothing at all, a `*login.AuthUser` (possibly the nil pointer), or a value of
some other dynamic type. -/
inductive Any where
  | nil
  | AuthUserPtr (p : Option login.AuthUser)
  | other (descr : String)
  deriving DecidableEq, Repr

namespace context

/-- The request-scoped context; `Value` is `ctx.Value(login.AuthUserKey)`. -/
structure Context where
  Value : Any
  deriving DecidableEq, Repr

end context

namespace http

/-- The parts of `*http.Request` the handlers read. -/
structure Request where
  Context : context.Context
  Body : String
  deriving DecidableEq, Repr

end http

/-- The type assertion `v.(*login.AuthUser)` in its two-result form: the pointer
and `ok`.  It succeeds exactly when the dynamic type is `*login.AuthUser`, the
nil pointer included. -/
def assertAuthUser (v : Any) : Option login.AuthUser × Bool :=
  match v with
  | .AuthUserPtr p => (p, true)
  | _ => (none, false)

namespace auth

/-! ## Types of package `auth` used by the handlers -/

/-- The token returned by `auth.Jwt`; `handle.go` reads `Token` and `Expiry`. -/
structure IdmToken where
  Token : String
  Expiry : time.Time
  deriving DecidableEq, Repr

structure MatchPassParam where
  UserUuid : login.UUID
  Password : String
  deriving DecidableEq, Repr

structure UpdatePassParam where
  UserUuid : login.UUID
  NewPassword : String
  deriving DecidableEq, Repr

structure PutPasswordJSONRequestBody where
  CurrentPassword : String
  NewPassword : String
  deriving DecidableEq, Repr

structure SuccessResponse where
  Result : String
  deriving DecidableEq, Repr

/-- The dynamic value of `Response.body`: a string or a `SuccessResponse`. -/
inductive Body where
  | text (s : String)
  | json (r : SuccessResponse)
  deriving DecidableEq, Repr

/-- The fields of `Response` that `handle.go` sets. -/
structure Response where
  body : Body
  Code : Nat
  deriving DecidableEq, Repr

/-- Modelled from the spec: `PostTokenJSON200Response` is generated code that is
not part of the sources at hand.  Section 6: issue-session success is HTTP 200
with the success payload as body. -/
def PostTokenJSON200Response (body : SuccessResponse) : Response :=
  { body := .json body, Code := http.StatusOK }

/-- Modelled from the spec: `PutPasswordJSON200Response` is generated code that
is not part of the sources at hand.  Section 6: rotate-password success is HTTP
200 with the success payload as body. -/
def PutPasswordJSON200Response (body : SuccessResponse) : Response :=
  { body := .json body, Code := http.StatusOK }

/-! ## Collaborators, call trace and log -/

/-- One invocation of a collaborator method, with its arguments. -/
inductive LeafCall where
  | CreateAccessToken (claimData : Option login.AuthUser)
  | CreateRefreshToken (claimData : Option login.AuthUser)
  | MatchPasswordByUuids (param : MatchPassParam)
  | VerifyPasswordComplexity (password : String)
  | UpdatePassword (param : UpdatePassParam)
  deriving DecidableEq, Repr

/-- The five collaborator methods. -/
inductive Leaf where
  | CreateAccessToken
  | CreateRefreshToken
  | MatchPasswordByUuids
  | VerifyPasswordComplexity
  | UpdatePassword
  deriving DecidableEq, Repr

/-- The method a call invokes. -/
def LeafCall.leaf : LeafCall → Leaf
  | .CreateAccessToken _ => .CreateAccessToken
  | .CreateRefreshToken _ => .CreateRefreshToken
  | .MatchPasswordByUuids _ => .MatchPasswordByUuids
  | .VerifyPasswordComplexity _ => .VerifyPasswordComplexity
  | .UpdatePassword _ => .UpdatePassword

inductive Level where
  | Warn
  | Error
  deriving DecidableEq, Repr

/-- A value logged as a key/value argument of an `slog` call. -/
inductive LogValue where
  | bool (b : Bool)
  | user (p : Option login.AuthUser)
  | uuid (u : login.UUID)
  | err (e : GoError)
  deriving DecidableEq, Repr

structure LogRecord where
  level : Level
  msg : String
  args : List (String × LogValue)
  deriving DecidableEq, Repr

/-- Everything outside the handler: the collaborators' state, the trace of
collaborator calls and the log. -/
structure World (σ : Type) where
  leaf : σ
  calls : List LeafCall
  log : List LogRecord

/-- The `auth.Jwt` collaborator (credential issuer). -/
structure Jwt (σ : Type) where
  CreateAccessToken : Option login.AuthUser → σ → (IdmToken × Option GoError) × σ
  CreateRefreshToken : Option login.AuthUser → σ → (IdmToken × Option GoError) × σ

/-- The `AuthLoginService` collaborator (credential manager). -/
structure AuthLoginService (σ : Type) where
  MatchPasswordByUuids : context.Context → MatchPassParam → σ → (Bool × Option GoError) × σ
  VerifyPasswordComplexity : context.Context → String → σ → Option GoError × σ
  UpdatePassword : context.Context → UpdatePassParam → σ → Option GoError × σ

structure Handle (σ : Type) where
  jwtService : Jwt σ
  authLoginService : AuthLoginService σ

def NewHandle {σ : Type} (jwtService : Jwt σ) (service : AuthLoginService σ) : Handle σ :=
  { jwtService := jwtService, authLoginService := service }

/-- What `handle.go` imports from outside the sources at hand: the two cookie
names of `pkg/login` and the JSON decoder `render.DecodeJSON` applied to the
request body, which returns the decoded data and an error.  The two names are
program constants; they are taken to be valid cookie names (section 6: both
`Set-Cookie` headers are sent), which the two proof fields record. -/
structure Externals where
  ACCESS_TOKEN_NAME : String
  REFRESH_TOKEN_NAME : String
  DecodeJSON : String → PutPasswordJSONRequestBody × Option GoError
  access_name_valid : http.isCookieNameValid ACCESS_TOKEN_NAME = true
  refresh_name_valid : http.isCookieNameValid REFRESH_TOKEN_NAME = true

variable {σ : Type}

def slogError (msg : String) (args : List (String × LogValue)) (s : World σ) : World σ :=
  { s with log := s.log ++ [{ level := .Error, msg := msg, args := args }] }

def slogWarn (msg : String) (args : List (String × LogValue)) (s : World σ) : World σ :=
  { s with log := s.log ++ [{ level := .Warn, msg := msg, args := args }] }

/-- Invoke `jwtService.CreateAccessToken(claimData)`. -/
def callCreateAccessToken (j : Jwt σ) (claimData : Option login.AuthUser) (s : World σ) :
    (IdmToken × Option GoError) × World σ :=
  ((j.CreateAccessToken claimData s.leaf).1,
   { s with leaf := (j.CreateAccessToken claimData s.leaf).2,
            calls := s.calls ++ [.CreateAccessToken claimData] })

/-- Invoke `jwtService.CreateRefreshToken(claimData)`. -/
def callCreateRefreshToken (j : Jwt σ) (claimData : Option login.AuthUser) (s : World σ) :
    (IdmToken × Option GoError) × World σ :=
  ((j.CreateRefreshToken claimData s.leaf).1,
   { s with leaf := (j.CreateRefreshToken claimData s.leaf).2,
            calls := s.calls ++ [.CreateRefreshToken claimData] })

/-- Invoke `authLoginService.MatchPasswordByUuids(ctx, param)`. -/
def callMatchPasswordByUuids (a : AuthLoginService σ) (ctx : context.Context)
    (param : MatchPassParam) (s : World σ) : (Bool × Option GoError) × World σ :=
  ((a.MatchPasswordByUuids ctx param s.leaf).1,
   { s with leaf := (a.MatchPasswordByUuids ctx param s.leaf).2,
            calls := s.calls ++ [.MatchPasswordByUuids param] })

/-- Invoke `authLoginService.VerifyPasswordComplexity(ctx, password)`. -/
def callVerifyPasswordComplexity (a : AuthLoginService σ) (ctx : context.Context)
    (password : String) (s : World σ) : Option GoError × World σ :=
  ((a.VerifyPasswordComplexity ctx password s.leaf).1,
   { s with leaf := (a.VerifyPasswordComplexity ctx password s.leaf).2,
            calls := s.calls ++ [.VerifyPasswordComplexity password] })

/-- Invoke `authLoginService.UpdatePassword(ctx, param)`. -/
def callUpdatePassword (a : AuthLoginService σ) (ctx : context.Context)
    (param : UpdatePassParam) (s : World σ) : Option GoError × World σ :=
  ((a.UpdatePassword ctx param s.leaf).1,
   { s with leaf := (a.UpdatePassword ctx param s.leaf).2,
            calls := s.calls ++ [.UpdatePassword param] })

/-! ## The handlers -/

/-- The outcome of running a handler: the returned `*Response` (`none` when the
handler panics), the response writer and the world afterwards. -/
structure Result (σ : Type) where
  response : Option Response
  w : http.ResponseWriter
  world : World σ

/-- The method `Handle.setTokenCookie` (handle.go, lines 25-37). -/
def setTokenCookie (w : http.ResponseWriter) (tokenName tokenValue : String)
    (expire : time.Time) : http.ResponseWriter :=
  let tokenCookie : http.Cookie :=
    { Name := tokenName
      Path := "/"
      Value := tokenValue
      Expires := expire
      HttpOnly := true
      Secure := true
      SameSite := .SameSiteLaxMode }
  http.SetCookie w tokenCookie

/-- The handler `Handle.PostToken` (handle.go, lines 39-76). -/
def PostToken (x : Externals) (h : Handle σ) (w : http.ResponseWriter) (r : http.Request)
    (s : World σ) : Result σ :=
  match assertAuthUser r.Context.Value with
  | (_, false) =>
    { response := some { body := .text (http.StatusText http.StatusUnauthorized),
                         Code := http.StatusUnauthorized }
      w := w
      world := slogError "Failed getting AuthUser" [("ok", .bool false)] s }
  | (authUser, true) =>
    match callCreateAccessToken h.jwtService authUser s with
    | ((_, some err), s1) =>
      { response := some { body := .text "Failed to create access token",
                           Code := http.StatusInternalServerError }
        w := w
        world := slogError "Failed to create access token"
                   [("user", .user authUser), ("err", .err err)] s1 }
    | ((accessToken, none), s1) =>
      match callCreateRefreshToken h.jwtService authUser s1 with
      | ((_, some err), s2) =>
        { response := some { body := .text "Failed to create refresh token",
                             Code := http.StatusInternalServerError }
          w := w
          world := slogError "Failed to create refresh token"
                     [("user", .user authUser), ("err", .err err)] s2 }
      | ((refreshToken, none), s2) =>
        let w1 := setTokenCookie w x.ACCESS_TOKEN_NAME accessToken.Token accessToken.Expiry
        let w2 := setTokenCookie w1 x.REFRESH_TOKEN_NAME refreshToken.Token refreshToken.Expiry
        { response := some (PostTokenJSON200Response { Result := "success" })
          w := w2
          world := s2 }

/-- The handler `Handle.PutPassword` (handle.go, lines 78-139).  The dereference
`authUser.UserUUID` on line 100 panics when the context holds a nil
`*login.AuthUser`. -/
def PutPassword (x : Externals) (h : Handle σ) (w : http.ResponseWriter) (r : http.Request)
    (s : World σ) : Result σ :=
  match x.DecodeJSON r.Body with
  | (_, some _) =>
    { response := some { Code := http.StatusBadRequest,
                         body := .text "Unable to parse request body" }
      w := w
      world := s }
  | (data, none) =>
    match assertAuthUser r.Context.Value with
    | (_, false) =>
      { response := some { body := .text (http.StatusText http.StatusUnauthorized),
                           Code := http.StatusUnauthorized }
        w := w
        world := slogError "Failed getting AuthUser" [("ok", .bool false)] s }
    | (none, true) =>
      { response := none, w := w, world := s }
    | (some authUser, true) =>
      -- check password match
      match callMatchPasswordByUuids h.authLoginService r.Context
              { UserUuid := authUser.UserUUID, Password := data.CurrentPassword } s with
      | ((_, some err), s1) =>
        { response := some { body := .text "Internal system error",
                             Code := http.StatusInternalServerError }
          w := w
          world := slogError "Failed to match password by user uuid"
                     [("user uuid", .uuid authUser.UserUUID), ("err", .err err)] s1 }
      | ((false, none), s1) =>
        { response := some { body := .text "Bad request",
                             Code := http.StatusBadRequest }
          w := w
          world := slogWarn "Password not match" [("user uuid", .uuid authUser.UserUUID)] s1 }
      | ((true, none), s1) =>
        -- check password complexity
        match callVerifyPasswordComplexity h.authLoginService r.Context data.NewPassword s1 with
        | (some err, s2) =>
          { response := some { body := .text err.Error,
                               Code := http.StatusBadRequest }
            w := w
            world := slogWarn "Password complexity check failed" [("err", .err err)] s2 }
        | (none, s2) =>
          -- update password
          match callUpdatePassword h.authLoginService r.Context
                  { UserUuid := authUser.UserUUID, NewPassword := data.NewPassword } s2 with
          | (some err, s3) =>
            { response := some { body := .text "Internal system error",
                                 Code := http.StatusInternalServerError }
              w := w
              world := slogError "Failed to update user password"
                         [("user uuid", .uuid authUser.UserUUID), ("err", .err err)] s3 }
          | (none, s3) =>
            { response := some (PutPasswordJSON200Response { Result := "success" })
              w := w
              world := s3 }

/-! ## Observations on a run -/

/-- The collaborator calls made during a run that started in world `s`. -/
def callsMade (s : World σ) (out : Result σ) : List LeafCall :=
  out.world.calls.drop s.calls.length

/-- How many of the calls `cs` invoke the method `l`. -/
def callCount (l : Leaf) (cs : List LeafCall) : Nat :=
  cs.countP (fun c => decide (c.leaf = l))

/-- The cookie `setTokenCookie` builds for a token. -/
def tokenCookie (name : String) (t : IdmToken) : http.Cookie :=
  { Name := name, Path := "/", Value := t.Token, Expires := t.Expiry,
    HttpOnly := true, Secure := true, SameSite := .SameSiteLaxMode }

/-! ## A concrete deployment, used to instantiate the theorems

One user `U1`; the collaborator state is the stored password and the number of
tokens minted so far.  The complexity policy accepts `New$Pass1` and rejects
everything else.  Each collaborator can be configured to fail. -/

namespace demo

structure State where
  password : String
  minted : Nat
  deriving DecidableEq, Repr

def jwt (accessErr refreshErr : Option GoError) : Jwt State :=
  { CreateAccessToken := fun _ st =>
      (({ Token := "access", Expiry := { unix := 900 + st.minted, offset := 0 } }, accessErr),
       { st with minted := st.minted + 1 })
    CreateRefreshToken := fun _ st =>
      (({ Token := "refresh", Expiry := { unix := 86400 + st.minted, offset := 0 } },
        refreshErr),
       { st with minted := st.minted + 1 }) }

def service (matchErr updateErr : Option GoError) : AuthLoginService State :=
  { MatchPasswordByUuids := fun _ param st =>
      match matchErr with
      | some e => ((false, some e), st)
      | none => ((decide (param.Password = st.password), none), st)
    VerifyPasswordComplexity := fun _ password st =>
      if password = "New$Pass1" then (none, st)
      else (some { Error := "password does not meet the policy" }, st)
    UpdatePassword := fun _ param st =>
      match updateErr with
      | some e => (some e, st)
      | none => (none, { st with password := param.NewPassword }) }

/-- The deployment in which no collaborator fails. -/
def handle : Handle State :=
  NewHandle (jwt none none) (service none none)

/-- Split a list of characters at its first comma. -/
def splitComma : List Char → Option (List Char × List Char)
  | [] => none
  | c :: cs =>
    if c = ',' then some ([], cs)
    else
      match splitComma cs with
      | some (a, b) => some (c :: a, b)
      | none => none

/-- A stand-in for `render.DecodeJSON`: the body `current,new` decodes to the
two passwords, a body without a comma is malformed. -/
def decodeJSON (body : String) : PutPasswordJSONRequestBody × Option GoError :=
  match splitComma body.data with
  | some (c, n) => ({ CurrentPassword := String.mk c, NewPassword := String.mk n }, none)
  | none => ({ CurrentPassword := "", NewPassword := "" },
             some { Error := "unexpected end of JSON input" })

def externals : Externals :=
  { ACCESS_TOKEN_NAME := "accessToken"
    REFRESH_TOKEN_NAME := "refreshToken"
    DecodeJSON := decodeJSON
    access_name_valid := by decide
    refresh_name_valid := by decide }

def U1 : login.AuthUser := { UserUUID := "U1" }

def world : World State :=
  { leaf := { password := "old", minted := 0 }, calls := [], log := [] }

def w0 : http.ResponseWriter := { cookies := [] }

/-- A request carrying identity `U1`. -/
def request (body : String) : http.Request :=
  { Context := { Value := .AuthUserPtr (some U1) }, Body := body }

/-- A request with no identity in its context. -/
def anonymous (body : String) : http.Request :=
  { Context := { Value := .nil }, Body := body }

end demo

end auth

/-! ## Properties -/

namespace auth

variable {σ : Type}

theorem StatusText_StatusUnauthorized : http.StatusText 401 = "Unauthorized" := rfl

theorem callsMade_of_append (s : World σ) (out : Result σ) (l : List LeafCall)
    (hc : out.world.calls = s.calls ++ l) : callsMade s out = l := by
  simp [callsMade, hc]

/-- C1, as stated, fails for `PutPassword`: the request has no identity in its
context and a body that does not decode; the handler answers 400 "Unable to
parse request body", not 401. -/
theorem PutPassword_anonymous_malformed_body_is_400 :
    (assertAuthUser (demo.anonymous "oops").Context.Value).2 = false ∧
    (demo.externals.DecodeJSON (demo.anonymous "oops").Body).2
      = some { Error := "unexpected end of JSON input" } ∧
    (PutPassword demo.externals demo.handle demo.w0 (demo.anonymous "oops") demo.world).response
      = some { body := .text "Unable to parse request body", Code := 400 } ∧
    (PutPassword demo.externals demo.handle demo.w0 (demo.anonymous "oops") demo.world).response
      ≠ some { body := .text (http.StatusText http.StatusUnauthorized),
               Code := http.StatusUnauthorized } := by
  decide

/-- C1 (amended): for every request whose context carries no resolved identity
(the type assertion to `*login.AuthUser` fails), `PostToken` returns 401
"Unauthorized"; `PutPassword` returns 401 "Unauthorized" when the body decodes
and 400 "Unable to parse request body" when it does not; neither handler
invokes a collaborator (the call trace and the collaborator state are
unchanged). -/
theorem no_identity_unauthenticated_no_leaf (x : Externals) (h : Handle σ)
    (w : http.ResponseWriter) (r : http.Request) (s : World σ)
    (hid : (assertAuthUser r.Context.Value).2 = false) :
    (PostToken x h w r s).response = some { body := .text "Unauthorized", Code := 401 } ∧
    (PostToken x h w r s).world.calls = s.calls ∧
    (PostToken x h w r s).world.leaf = s.leaf ∧
    ((x.DecodeJSON r.Body).2 = none →
      (PutPassword x h w r s).response = some { body := .text "Unauthorized", Code := 401 }) ∧
    ((x.DecodeJSON r.Body).2 ≠ none →
      (PutPassword x h w r s).response
        = some { body := .text "Unable to parse request body", Code := 400 }) ∧
    (PutPassword x h w r s).world.calls = s.calls ∧
    (PutPassword x h w r s).world.leaf = s.leaf := by
  have hv : assertAuthUser r.Context.Value = (none, false) := by
    cases hc : r.Context.Value <;> simp [assertAuthUser, hc] at hid ⊢
  rcases hd : x.DecodeJSON r.Body with ⟨data, _ | e⟩ <;>
    simp [PostToken, PutPassword, hv, hd, slogError, StatusText_StatusUnauthorized,
      http.StatusUnauthorized, http.StatusBadRequest]

theorem no_identity_unauthenticated_no_leaf_witness :
    ((PostToken demo.externals demo.handle demo.w0 (demo.anonymous "old,New$Pass1")
        demo.world).response = some { body := .text "Unauthorized", Code := 401 }) ∧
    ((PutPassword demo.externals demo.handle demo.w0 (demo.anonymous "old,New$Pass1")
        demo.world).response = some { body := .text "Unauthorized", Code := 401 }) ∧
    ((PutPassword demo.externals demo.handle demo.w0 (demo.anonymous "old,New$Pass1")
        demo.world).world.calls = []) :=
  have t := no_identity_unauthenticated_no_leaf demo.externals demo.handle demo.w0
    (demo.anonymous "old,New$Pass1") demo.world rfl
  ⟨t.1, t.2.2.2.1 (by decide), t.2.2.2.2.2.1⟩

/-- C3: cookie delivery is all-or-nothing.  Every run of `PostToken` either
returns the success response and has added exactly the access and the refresh
cookie, or returns one of the three failure responses (missing identity,
access issuance error, refresh issuance error) and leaves the response writer
untouched; every run of `PutPassword` leaves the response writer untouched. -/
theorem cookie_delivery_all_or_nothing (x : Externals) (h : Handle σ)
    (w : http.ResponseWriter) (r : http.Request) (s : World σ) :
    (((PostToken x h w r s).response = some (PostTokenJSON200Response { Result := "success" }) ∧
        ∃ accessToken refreshToken : IdmToken,
          (PostToken x h w r s).w.cookies
            = w.cookies ++ [(tokenCookie x.ACCESS_TOKEN_NAME accessToken).header,
                            (tokenCookie x.REFRESH_TOKEN_NAME refreshToken).header]) ∨
      (((PostToken x h w r s).response = some { body := .text "Unauthorized", Code := 401 } ∨
        (PostToken x h w r s).response
          = some { body := .text "Failed to create access token", Code := 500 } ∨
        (PostToken x h w r s).response
          = some { body := .text "Failed to create refresh token", Code := 500 }) ∧
        (PostToken x h w r s).w = w)) ∧
    (PutPassword x h w r s).w = w := by
  constructor
  · unfold PostToken
    split
    · right
      simp [StatusText_StatusUnauthorized, http.StatusUnauthorized]
    · split
      · right
        simp [http.StatusInternalServerError]
      · split
        · right
          simp [http.StatusInternalServerError]
        · left
          rename_i accessToken _ _ _ refreshToken _ _
          refine ⟨rfl, accessToken, refreshToken, ?_⟩
          simp [setTokenCookie, http.SetCookie, tokenCookie, x.access_name_valid,
            x.refresh_name_valid]
  · unfold PutPassword
    repeat (first | rfl | split)

/-- C4: for every request with an identity, if `CreateAccessToken` returns an
error then `PostToken` returns 500 "Failed to create access token", the only
collaborator call it makes is that `CreateAccessToken`, and the number of
`CreateRefreshToken` calls is 0. -/
theorem access_failure_skips_refresh (x : Externals) (h : Handle σ)
    (w : http.ResponseWriter) (r : http.Request) (s : World σ) (u : login.AuthUser)
    (e : GoError)
    (hid : r.Context.Value = .AuthUserPtr (some u))
    (ha : (h.jwtService.CreateAccessToken (some u) s.leaf).1.2 = some e) :
    (PostToken x h w r s).response
      = some { body := .text "Failed to create access token", Code := 500 } ∧
    (PostToken x h w r s).world.calls = s.calls ++ [.CreateAccessToken (some u)] ∧
    callCount .CreateRefreshToken (callsMade s (PostToken x h w r s)) = 0 := by
  rcases hx : h.jwtService.CreateAccessToken (some u) s.leaf with ⟨⟨tok, err⟩, l1⟩
  rw [hx] at ha
  simp only at ha
  subst ha
  have hc : (PostToken x h w r s).world.calls = s.calls ++ [.CreateAccessToken (some u)] := by
    simp [PostToken, assertAuthUser, hid, callCreateAccessToken, hx, slogError]
  refine ⟨?_, hc, ?_⟩
  · simp [PostToken, assertAuthUser, hid, callCreateAccessToken, hx,
      http.StatusInternalServerError]
  · rw [callsMade_of_append s _ _ hc]
    simp [callCount, LeafCall.leaf]

theorem access_failure_skips_refresh_witness :
    (PostToken demo.externals
        (NewHandle (demo.jwt (some { Error := "signing key unavailable" }) none)
          (demo.service none none))
        demo.w0 (demo.request "") demo.world).response
      = some { body := .text "Failed to create access token", Code := 500 } ∧
    (PostToken demo.externals
        (NewHandle (demo.jwt (some { Error := "signing key unavailable" }) none)
          (demo.service none none))
        demo.w0 (demo.request "") demo.world).world.calls
      = [.CreateAccessToken (some demo.U1)] :=
  have t := access_failure_skips_refresh demo.externals
    (NewHandle (demo.jwt (some { Error := "signing key unavailable" }) none)
      (demo.service none none))
    demo.w0 (demo.request "") demo.world demo.U1 { Error := "signing key unavailable" } rfl rfl
  ⟨t.1, t.2.1⟩

/-- C5: for every `PutPassword` request with an identity and a body that
decodes, if `MatchPasswordByUuids` reports without error that the current
password does not match, the response is 400 "Bad request", the only
collaborator call made is that `MatchPasswordByUuids`, and `UpdatePassword` is
called 0 times, whatever the new password is. -/
theorem mismatch_is_400_and_no_update (x : Externals) (h : Handle σ)
    (w : http.ResponseWriter) (r : http.Request) (s : World σ) (u : login.AuthUser)
    (data : PutPasswordJSONRequestBody) (l1 : σ)
    (hd : x.DecodeJSON r.Body = (data, none))
    (hid : r.Context.Value = .AuthUserPtr (some u))
    (hm : h.authLoginService.MatchPasswordByUuids r.Context
            { UserUuid := u.UserUUID, Password := data.CurrentPassword } s.leaf
          = ((false, none), l1)) :
    (PutPassword x h w r s).response = some { body := .text "Bad request", Code := 400 } ∧
    (PutPassword x h w r s).world.calls
      = s.calls ++ [.MatchPasswordByUuids
                      { UserUuid := u.UserUUID, Password := data.CurrentPassword }] ∧
    callCount .UpdatePassword (callsMade s (PutPassword x h w r s)) = 0 := by
  have hc : (PutPassword x h w r s).world.calls
      = s.calls ++ [.MatchPasswordByUuids
                      { UserUuid := u.UserUUID, Password := data.CurrentPassword }] := by
    simp [PutPassword, hd, assertAuthUser, hid, callMatchPasswordByUuids, hm, slogWarn]
  refine ⟨?_, hc, ?_⟩
  · simp [PutPassword, hd, assertAuthUser, hid, callMatchPasswordByUuids, hm,
      http.StatusBadRequest]
  · rw [callsMade_of_append s _ _ hc]
    simp [callCount, LeafCall.leaf]

theorem mismatch_is_400_and_no_update_witness :
    (PutPassword demo.externals demo.handle demo.w0 (demo.request "wrong,New$Pass1")
        demo.world).response = some { body := .text "Bad request", Code := 400 } ∧
    callCount .UpdatePassword
      (callsMade demo.world
        (PutPassword demo.externals demo.handle demo.w0 (demo.request "wrong,New$Pass1")
          demo.world)) = 0 :=
  have t := mismatch_is_400_and_no_update demo.externals demo.handle demo.w0
    (demo.request "wrong,New$Pass1") demo.world demo.U1
    { CurrentPassword := "wrong", NewPassword := "New$Pass1" }
    { password := "old", minted := 0 } rfl rfl rfl
  ⟨t.1, t.2.2⟩

/-- C6: for every `PutPassword` request with an identity and a body that
decodes, if the current password matches and `VerifyPasswordComplexity` rejects
the new password with reason `reason`, the response has status 400 and its
body is exactly the text of `reason`, the collaborator calls made are
`MatchPasswordByUuids` then `VerifyPasswordComplexity`, and `UpdatePassword` is
called 0 times. -/
theorem complexity_rejection_is_400_with_reason (x : Externals) (h : Handle σ)
    (w : http.ResponseWriter) (r : http.Request) (s : World σ) (u : login.AuthUser)
    (data : PutPasswordJSONRequestBody) (l1 l2 : σ) (reason : GoError)
    (hd : x.DecodeJSON r.Body = (data, none))
    (hid : r.Context.Value = .AuthUserPtr (some u))
    (hm : h.authLoginService.MatchPasswordByUuids r.Context
            { UserUuid := u.UserUUID, Password := data.CurrentPassword } s.leaf
          = ((true, none), l1))
    (hv : h.authLoginService.VerifyPasswordComplexity r.Context data.NewPassword l1
          = (some reason, l2)) :
    (PutPassword x h w r s).response = some { body := .text reason.Error, Code := 400 } ∧
    (PutPassword x h w r s).world.calls
      = s.calls ++ [.MatchPasswordByUuids
                      { UserUuid := u.UserUUID, Password := data.CurrentPassword },
                    .VerifyPasswordComplexity data.NewPassword] ∧
    callCount .UpdatePassword (callsMade s (PutPassword x h w r s)) = 0 := by
  have hc : (PutPassword x h w r s).world.calls
      = s.calls ++ [.MatchPasswordByUuids
                      { UserUuid := u.UserUUID, Password := data.CurrentPassword },
                    .VerifyPasswordComplexity data.NewPassword] := by
    simp [PutPassword, hd, assertAuthUser, hid, callMatchPasswordByUuids, hm,
      callVerifyPasswordComplexity, hv, slogWarn]
  refine ⟨?_, hc, ?_⟩
  · simp [PutPassword, hd, assertAuthUser, hid, callMatchPasswordByUuids, hm,
      callVerifyPasswordComplexity, hv, http.StatusBadRequest]
  · rw [callsMade_of_append s _ _ hc]
    simp [callCount, LeafCall.leaf]

theorem complexity_rejection_is_400_with_reason_witness :
    (PutPassword demo.externals demo.handle demo.w0 (demo.request "old,weak")
        demo.world).response
      = some { body := .text "password does not meet the policy", Code := 400 } ∧
    callCount .UpdatePassword
      (callsMade demo.world
        (PutPassword demo.externals demo.handle demo.w0 (demo.request "old,weak")
          demo.world)) = 0 :=
  have t := complexity_rejection_is_400_with_reason demo.externals demo.handle demo.w0
    (demo.request "old,weak") demo.world demo.U1
    { CurrentPassword := "old", NewPassword := "weak" }
    { password := "old", minted := 0 } { password := "old", minted := 0 }
    { Error := "password does not meet the policy" } rfl rfl rfl rfl
  ⟨t.1, t.2.2⟩

/-- C7, as stated, fails: identity `U1`, the current password "old" matches and
the new password "New$Pass1" complies, but `UpdatePassword` returns an error;
the response is 500 "Internal system error", not 200. -/
theorem PutPassword_update_error_is_500 :
    (demo.request "old,New$Pass1").Context.Value = .AuthUserPtr (some { UserUUID := "U1" }) ∧
    demo.externals.DecodeJSON (demo.request "old,New$Pass1").Body
      = ({ CurrentPassword := "old", NewPassword := "New$Pass1" }, none) ∧
    (demo.service none (some { Error := "disk full" })).MatchPasswordByUuids
        (demo.request "old,New$Pass1").Context { UserUuid := "U1", Password := "old" }
        demo.world.leaf = ((true, none), demo.world.leaf) ∧
    (demo.service none (some { Error := "disk full" })).VerifyPasswordComplexity
        (demo.request "old,New$Pass1").Context "New$Pass1" demo.world.leaf
      = (none, demo.world.leaf) ∧
    (PutPassword demo.externals
        (NewHandle (demo.jwt none none) (demo.service none (some { Error := "disk full" })))
        demo.w0 (demo.request "old,New$Pass1") demo.world).response
      = some { body := .text "Internal system error", Code := 500 } ∧
    (PutPassword demo.externals
        (NewHandle (demo.jwt none none) (demo.service none (some { Error := "disk full" })))
        demo.w0 (demo.request "old,New$Pass1") demo.world).response
      ≠ some { body := .json { Result := "success" }, Code := 200 } := by
  decide

/-- C7 (amended): for every `PutPassword` request with an identity and a body
that decodes, if the current password matches and the new password complies
with the complexity policy, then the collaborator calls made are
`MatchPasswordByUuids`, `VerifyPasswordComplexity` and `UpdatePassword` in this
order, `UpdatePassword` being called exactly once, with the identity's user id
and the request's new password; if that call returns no error the response is
status 200 with body {result: "success"}, and if it returns an error the
response is 500 "Internal system error". -/
theorem match_and_comply_updates_once (x : Externals) (h : Handle σ)
    (w : http.ResponseWriter) (r : http.Request) (s : World σ) (u : login.AuthUser)
    (data : PutPasswordJSONRequestBody) (l1 l2 : σ)
    (hd : x.DecodeJSON r.Body = (data, none))
    (hid : r.Context.Value = .AuthUserPtr (some u))
    (hm : h.authLoginService.MatchPasswordByUuids r.Context
            { UserUuid := u.UserUUID, Password := data.CurrentPassword } s.leaf
          = ((true, none), l1))
    (hv : h.authLoginService.VerifyPasswordComplexity r.Context data.NewPassword l1
          = (none, l2)) :
    (PutPassword x h w r s).world.calls
      = s.calls ++ [.MatchPasswordByUuids
                      { UserUuid := u.UserUUID, Password := data.CurrentPassword },
                    .VerifyPasswordComplexity data.NewPassword,
                    .UpdatePassword
                      { UserUuid := u.UserUUID, NewPassword := data.NewPassword }] ∧
    callCount .UpdatePassword (callsMade s (PutPassword x h w r s)) = 1 ∧
    ((h.authLoginService.UpdatePassword r.Context
          { UserUuid := u.UserUUID, NewPassword := data.NewPassword } l2).1 = none →
      (PutPassword x h w r s).response
        = some { body := .json { Result := "success" }, Code := 200 }) ∧
    ((h.authLoginService.UpdatePassword r.Context
          { UserUuid := u.UserUUID, NewPassword := data.NewPassword } l2).1 ≠ none →
      (PutPassword x h w r s).response
        = some { body := .text "Internal system error", Code := 500 }) := by
  rcases hu : h.authLoginService.UpdatePassword r.Context
      { UserUuid := u.UserUUID, NewPassword := data.NewPassword } l2 with ⟨_ | ue, l3⟩
  all_goals
    have hc : (PutPassword x h w r s).world.calls
        = s.calls ++ [.MatchPasswordByUuids
                        { UserUuid := u.UserUUID, Password := data.CurrentPassword },
                      .VerifyPasswordComplexity data.NewPassword,
                      .UpdatePassword
                        { UserUuid := u.UserUUID, NewPassword := data.NewPassword }] := by
      simp [PutPassword, hd, assertAuthUser, hid, callMatchPasswordByUuids, hm,
        callVerifyPasswordComplexity, hv, callUpdatePassword, hu, slogError]
    refine ⟨hc, ?_, ?_, ?_⟩
    · rw [callsMade_of_append s _ _ hc]
      simp [callCount, LeafCall.leaf]
    · simp [PutPassword, hd, assertAuthUser, hid, callMatchPasswordByUuids, hm,
        callVerifyPasswordComplexity, hv, callUpdatePassword, hu,
        PutPasswordJSON200Response, http.StatusOK]
    · simp [PutPassword, hd, assertAuthUser, hid, callMatchPasswordByUuids, hm,
        callVerifyPasswordComplexity, hv, callUpdatePassword, hu,
        http.StatusInternalServerError]

theorem match_and_comply_updates_once_witness :
    (PutPassword demo.externals demo.handle demo.w0 (demo.request "old,New$Pass1")
        demo.world).world.calls
      = [.MatchPasswordByUuids { UserUuid := "U1", Password := "old" },
         .VerifyPasswordComplexity "New$Pass1",
         .UpdatePassword { UserUuid := "U1", NewPassword := "New$Pass1" }] ∧
    (PutPassword demo.externals demo.handle demo.w0 (demo.request "old,New$Pass1")
        demo.world).response
      = some { body := .json { Result := "success" }, Code := 200 } :=
  have t := match_and_comply_updates_once demo.externals demo.handle demo.w0
    (demo.request "old,New$Pass1") demo.world demo.U1
    { CurrentPassword := "old", NewPassword := "New$Pass1" }
    { password := "old", minted := 0 } { password := "old", minted := 0 } rfl rfl rfl rfl
  ⟨t.1, t.2.2.1 rfl⟩

/-- C8: leaf errors are answered with a fixed internal error.  Take two runs
on a request with an identity, with arbitrary collaborators and worlds.  When
`CreateAccessToken`, `CreateRefreshToken`, `MatchPasswordByUuids` or
`UpdatePassword` returns an error in both runs (`e` in the first, `e2` in the
second), both responses are the same fixed response with status 500, whose
body mentions neither error.  The error of `VerifyPasswordComplexity` is the
only one whose text reaches the response: it is the body of the 400. -/
theorem leaf_errors_are_internal (x : Externals) (h h2 : Handle σ)
    (w : http.ResponseWriter) (r : http.Request) (s s2 : World σ) (u : login.AuthUser)
    (e e2 : GoError)
    (hid : r.Context.Value = .AuthUserPtr (some u)) :
    (∀ (t t2 : IdmToken) (l l2 : σ),
      h.jwtService.CreateAccessToken (some u) s.leaf = ((t, some e), l) →
      h2.jwtService.CreateAccessToken (some u) s2.leaf = ((t2, some e2), l2) →
      (PostToken x h w r s).response
        = some { body := .text "Failed to create access token", Code := 500 } ∧
      (PostToken x h2 w r s2).response = (PostToken x h w r s).response) ∧
    (∀ (a a2 t t2 : IdmToken) (l l2 m m2 : σ),
      h.jwtService.CreateAccessToken (some u) s.leaf = ((a, none), l) →
      h.jwtService.CreateRefreshToken (some u) l = ((t, some e), m) →
      h2.jwtService.CreateAccessToken (some u) s2.leaf = ((a2, none), l2) →
      h2.jwtService.CreateRefreshToken (some u) l2 = ((t2, some e2), m2) →
      (PostToken x h w r s).response
        = some { body := .text "Failed to create refresh token", Code := 500 } ∧
      (PostToken x h2 w r s2).response = (PostToken x h w r s).response) ∧
    (∀ (data : PutPasswordJSONRequestBody) (b b2 : Bool) (l l2 : σ),
      x.DecodeJSON r.Body = (data, none) →
      h.authLoginService.MatchPasswordByUuids r.Context
          { UserUuid := u.UserUUID, Password := data.CurrentPassword } s.leaf
        = ((b, some e), l) →
      h2.authLoginService.MatchPasswordByUuids r.Context
          { UserUuid := u.UserUUID, Password := data.CurrentPassword } s2.leaf
        = ((b2, some e2), l2) →
      (PutPassword x h w r s).response
        = some { body := .text "Internal system error", Code := 500 } ∧
      (PutPassword x h2 w r s2).response = (PutPassword x h w r s).response) ∧
    (∀ (data : PutPasswordJSONRequestBody) (l l2 m m2 n n2 : σ),
      x.DecodeJSON r.Body = (data, none) →
      h.authLoginService.MatchPasswordByUuids r.Context
          { UserUuid := u.UserUUID, Password := data.CurrentPassword } s.leaf
        = ((true, none), l) →
      h.authLoginService.VerifyPasswordComplexity r.Context data.NewPassword l
        = (none, m) →
      h.authLoginService.UpdatePassword r.Context
          { UserUuid := u.UserUUID, NewPassword := data.NewPassword } m = (some e, n) →
      h2.authLoginService.MatchPasswordByUuids r.Context
          { UserUuid := u.UserUUID, Password := data.CurrentPassword } s2.leaf
        = ((true, none), l2) →
      h2.authLoginService.VerifyPasswordComplexity r.Context data.NewPassword l2
        = (none, m2) →
      h2.authLoginService.UpdatePassword r.Context
          { UserUuid := u.UserUUID, NewPassword := data.NewPassword } m2 = (some e2, n2) →
      (PutPassword x h w r s).response
        = some { body := .text "Internal system error", Code := 500 } ∧
      (PutPassword x h2 w r s2).response = (PutPassword x h w r s).response) ∧
    (∀ (data : PutPasswordJSONRequestBody) (l m : σ),
      x.DecodeJSON r.Body = (data, none) →
      h.authLoginService.MatchPasswordByUuids r.Context
          { UserUuid := u.UserUUID, Password := data.CurrentPassword } s.leaf
        = ((true, none), l) →
      h.authLoginService.VerifyPasswordComplexity r.Context data.NewPassword l
        = (some e, m) →
      (PutPassword x h w r s).response = some { body := .text e.Error, Code := 400 }) := by
  refine ⟨?_, ?_, ?_, ?_, ?_⟩
  · intro t t2 l l2 ha ha2
    simp [PostToken, assertAuthUser, hid, callCreateAccessToken, ha, ha2,
      http.StatusInternalServerError]
  · intro a a2 t t2 l l2 m m2 ha hr ha2 hr2
    simp [PostToken, assertAuthUser, hid, callCreateAccessToken, callCreateRefreshToken,
      ha, hr, ha2, hr2, http.StatusInternalServerError]
  · intro data b b2 l l2 hd hm hm2
    simp [PutPassword, hd, assertAuthUser, hid, callMatchPasswordByUuids, hm, hm2,
      http.StatusInternalServerError]
  · intro data l l2 m m2 n n2 hd hm hv hu hm2 hv2 hu2
    simp [PutPassword, hd, assertAuthUser, hid, callMatchPasswordByUuids,
      callVerifyPasswordComplexity, callUpdatePassword, hm, hv, hu, hm2, hv2, hu2,
      http.StatusInternalServerError]
  · intro data l m hd hm hv
    simp [PutPassword, hd, assertAuthUser, hid, callMatchPasswordByUuids,
      callVerifyPasswordComplexity, hm, hv, http.StatusBadRequest]

theorem leaf_errors_are_internal_witness :
    ((PostToken demo.externals
        (NewHandle (demo.jwt (some { Error := "signing key unavailable" }) none)
          (demo.service none none))
        demo.w0 (demo.request "old,New$Pass1") demo.world).response
      = some { body := .text "Failed to create access token", Code := 500 }) ∧
    ((PostToken demo.externals
        (NewHandle (demo.jwt none (some { Error := "clock skew" })) (demo.service none none))
        demo.w0 (demo.request "old,New$Pass1") demo.world).response
      = some { body := .text "Failed to create refresh token", Code := 500 }) ∧
    ((PutPassword demo.externals
        (NewHandle (demo.jwt none none) (demo.service (some { Error := "db down" }) none))
        demo.w0 (demo.request "old,New$Pass1") demo.world).response
      = some { body := .text "Internal system error", Code := 500 }) ∧
    ((PutPassword demo.externals
        (NewHandle (demo.jwt none none) (demo.service none (some { Error := "disk full" })))
        demo.w0 (demo.request "old,New$Pass1") demo.world).response
      = some { body := .text "Internal system error", Code := 500 }) ∧
    ((PutPassword demo.externals demo.handle demo.w0 (demo.request "old,weak")
        demo.world).response
      = some { body := .text "password does not meet the policy", Code := 400 }) :=
  ⟨((leaf_errors_are_internal demo.externals
        (NewHandle (demo.jwt (some { Error := "signing key unavailable" }) none)
          (demo.service none none))
        (NewHandle (demo.jwt (some { Error := "hsm timeout" }) none) (demo.service none none))
        demo.w0 (demo.request "old,New$Pass1") demo.world demo.world demo.U1
        { Error := "signing key unavailable" } { Error := "hsm timeout" } rfl).1
      _ _ _ _ rfl rfl).1,
   ((leaf_errors_are_internal demo.externals
        (NewHandle (demo.jwt none (some { Error := "clock skew" })) (demo.service none none))
        (NewHandle (demo.jwt none (some { Error := "hsm timeout" })) (demo.service none none))
        demo.w0 (demo.request "old,New$Pass1") demo.world demo.world demo.U1
        { Error := "clock skew" } { Error := "hsm timeout" } rfl).2.1
      _ _ _ _ _ _ _ _ rfl rfl rfl rfl).1,
   ((leaf_errors_are_internal demo.externals
        (NewHandle (demo.jwt none none) (demo.service (some { Error := "db down" }) none))
        (NewHandle (demo.jwt none none) (demo.service (some { Error := "timeout" }) none))
        demo.w0 (demo.request "old,New$Pass1") demo.world demo.world demo.U1
        { Error := "db down" } { Error := "timeout" } rfl).2.2.1
      _ _ _ _ _ rfl rfl rfl).1,
   ((leaf_errors_are_internal demo.externals
        (NewHandle (demo.jwt none none) (demo.service none (some { Error := "disk full" })))
        (NewHandle (demo.jwt none none) (demo.service none (some { Error := "timeout" })))
        demo.w0 (demo.request "old,New$Pass1") demo.world demo.world demo.U1
        { Error := "disk full" } { Error := "timeout" } rfl).2.2.2.1
      _ _ _ _ _ _ _ rfl rfl rfl rfl rfl rfl rfl).1,
   (leaf_errors_are_internal demo.externals demo.handle demo.handle
        demo.w0 (demo.request "old,weak") demo.world demo.world demo.U1
        { Error := "password does not meet the policy" }
        { Error := "password does not meet the policy" } rfl).2.2.2.2
      _ _ _ rfl rfl rfl⟩

/-- C9: a password mismatch is answered with the generic bad request.  For
every `PutPassword` request with an identity and a body that decodes whose
current password does not match, the response is 400 "Bad request", the same
for every user id, current password, new password and complexity policy; and
its status code is the status code of every complexity rejection and of every
malformed body. -/
theorem mismatch_is_generic_bad_request (x : Externals) (h : Handle σ)
    (w : http.ResponseWriter) (r : http.Request) (s : World σ) (u : login.AuthUser)
    (data : PutPasswordJSONRequestBody) (l1 : σ)
    (hd : x.DecodeJSON r.Body = (data, none))
    (hid : r.Context.Value = .AuthUserPtr (some u))
    (hm : h.authLoginService.MatchPasswordByUuids r.Context
            { UserUuid := u.UserUUID, Password := data.CurrentPassword } s.leaf
          = ((false, none), l1)) :
    (PutPassword x h w r s).response = some { body := .text "Bad request", Code := 400 } ∧
    (∀ (x2 : Externals) (h2 : Handle σ) (w2 : http.ResponseWriter) (r2 : http.Request)
        (s2 : World σ) (u2 : login.AuthUser) (data2 : PutPasswordJSONRequestBody)
        (m1 m2 : σ) (reason : GoError),
      x2.DecodeJSON r2.Body = (data2, none) →
      r2.Context.Value = .AuthUserPtr (some u2) →
      h2.authLoginService.MatchPasswordByUuids r2.Context
          { UserUuid := u2.UserUUID, Password := data2.CurrentPassword } s2.leaf
        = ((true, none), m1) →
      h2.authLoginService.VerifyPasswordComplexity r2.Context data2.NewPassword m1
        = (some reason, m2) →
      (PutPassword x2 h2 w2 r2 s2).response.map (fun p => p.Code)
        = (PutPassword x h w r s).response.map (fun p => p.Code)) ∧
    (∀ (x2 : Externals) (h2 : Handle σ) (w2 : http.ResponseWriter) (r2 : http.Request)
        (s2 : World σ) (data2 : PutPasswordJSONRequestBody) (e : GoError),
      x2.DecodeJSON r2.Body = (data2, some e) →
      (PutPassword x2 h2 w2 r2 s2).response.map (fun p => p.Code)
        = (PutPassword x h w r s).response.map (fun p => p.Code)) := by
  have hresp : (PutPassword x h w r s).response
      = some { body := .text "Bad request", Code := 400 } := by
    simp [PutPassword, hd, assertAuthUser, hid, callMatchPasswordByUuids, hm,
      http.StatusBadRequest]
  refine ⟨hresp, ?_, ?_⟩
  · intro x2 h2 w2 r2 s2 u2 data2 m1 m2 reason hd2 hid2 hm2 hv2
    rw [hresp]
    simp [PutPassword, hd2, assertAuthUser, hid2, callMatchPasswordByUuids, hm2,
      callVerifyPasswordComplexity, hv2, http.StatusBadRequest]
  · intro x2 h2 w2 r2 s2 data2 e hd2
    rw [hresp]
    simp [PutPassword, hd2, http.StatusBadRequest]

theorem mismatch_is_generic_bad_request_witness :
    ((PutPassword demo.externals demo.handle demo.w0 (demo.request "guess,New$Pass1")
        demo.world).response = some { body := .text "Bad request", Code := 400 }) ∧
    ((PutPassword demo.externals demo.handle demo.w0 (demo.request "old,weak")
        demo.world).response.map (fun p => p.Code)
      = (PutPassword demo.externals demo.handle demo.w0 (demo.request "guess,New$Pass1")
          demo.world).response.map (fun p => p.Code)) ∧
    ((PutPassword demo.externals demo.handle demo.w0 (demo.request "oops")
        demo.world).response.map (fun p => p.Code)
      = (PutPassword demo.externals demo.handle demo.w0 (demo.request "guess,New$Pass1")
          demo.world).response.map (fun p => p.Code)) :=
  have t := mismatch_is_generic_bad_request demo.externals demo.handle demo.w0
    (demo.request "guess,New$Pass1") demo.world demo.U1
    { CurrentPassword := "guess", NewPassword := "New$Pass1" }
    { password := "old", minted := 0 } rfl rfl rfl
  ⟨t.1,
   t.2.1 demo.externals demo.handle demo.w0 (demo.request "old,weak") demo.world demo.U1
     { CurrentPassword := "old", NewPassword := "weak" }
     { password := "old", minted := 0 } { password := "old", minted := 0 }
     { Error := "password does not meet the policy" } rfl rfl rfl rfl,
   t.2.2 demo.externals demo.handle demo.w0 (demo.request "oops") demo.world
     { CurrentPassword := "", NewPassword := "" }
     { Error := "unexpected end of JSON input" } rfl⟩

/-- The four possible call traces of `PutPassword`, each with the collaborator
results that lead to it. -/
theorem PutPassword_trace (x : Externals) (h : Handle σ) (w : http.ResponseWriter)
    (r : http.Request) (s : World σ) :
    (PutPassword x h w r s).world.calls = s.calls ∨
    (∃ (u : login.AuthUser) (data : PutPasswordJSONRequestBody),
      (PutPassword x h w r s).world.calls
        = s.calls ++ [.MatchPasswordByUuids
                        { UserUuid := u.UserUUID, Password := data.CurrentPassword }]) ∨
    (∃ (u : login.AuthUser) (data : PutPasswordJSONRequestBody) (l1 : σ),
      x.DecodeJSON r.Body = (data, none) ∧
      r.Context.Value = .AuthUserPtr (some u) ∧
      h.authLoginService.MatchPasswordByUuids r.Context
          { UserUuid := u.UserUUID, Password := data.CurrentPassword } s.leaf
        = ((true, none), l1) ∧
      (PutPassword x h w r s).world.calls
        = s.calls ++ [.MatchPasswordByUuids
                        { UserUuid := u.UserUUID, Password := data.CurrentPassword },
                      .VerifyPasswordComplexity data.NewPassword]) ∨
    (∃ (u : login.AuthUser) (data : PutPasswordJSONRequestBody) (l1 l2 : σ),
      x.DecodeJSON r.Body = (data, none) ∧
      r.Context.Value = .AuthUserPtr (some u) ∧
      h.authLoginService.MatchPasswordByUuids r.Context
          { UserUuid := u.UserUUID, Password := data.CurrentPassword } s.leaf
        = ((true, none), l1) ∧
      h.authLoginService.VerifyPasswordComplexity r.Context data.NewPassword l1
        = (none, l2) ∧
      (PutPassword x h w r s).world.calls
        = s.calls ++ [.MatchPasswordByUuids
                        { UserUuid := u.UserUUID, Password := data.CurrentPassword },
                      .VerifyPasswordComplexity data.NewPassword,
                      .UpdatePassword
                        { UserUuid := u.UserUUID, NewPassword := data.NewPassword }]) := by
  rcases hd : x.DecodeJSON r.Body with ⟨data, _ | de⟩
  swap
  · left
    simp [PutPassword, hd]
  cases hid : r.Context.Value with
  | nil => left; simp [PutPassword, hd, assertAuthUser, hid, slogError]
  | other d => left; simp [PutPassword, hd, assertAuthUser, hid, slogError]
  | AuthUserPtr p =>
    cases p with
    | none => left; simp [PutPassword, hd, assertAuthUser, hid]
    | some u =>
      rcases hm : h.authLoginService.MatchPasswordByUuids r.Context
          { UserUuid := u.UserUUID, Password := data.CurrentPassword } s.leaf
        with ⟨⟨b, _ | me⟩, l1⟩
      swap
      · right; left
        exact ⟨u, data, by
          simp [PutPassword, hd, assertAuthUser, hid, callMatchPasswordByUuids, hm, slogError]⟩
      cases b with
      | false =>
        right; left
        exact ⟨u, data, by
          simp [PutPassword, hd, assertAuthUser, hid, callMatchPasswordByUuids, hm, slogWarn]⟩
      | true =>
        rcases hv : h.authLoginService.VerifyPasswordComplexity r.Context data.NewPassword l1
          with ⟨_ | ve, l2⟩
        · right; right; right
          refine ⟨u, data, l1, l2, rfl, rfl, hm, hv, ?_⟩
          rcases hu : h.authLoginService.UpdatePassword r.Context
              { UserUuid := u.UserUUID, NewPassword := data.NewPassword } l2 with ⟨_ | ue, l3⟩ <;>
            simp [PutPassword, hd, assertAuthUser, hid, callMatchPasswordByUuids, hm,
              callVerifyPasswordComplexity, hv, callUpdatePassword, hu, slogError]
        · right; right; left
          refine ⟨u, data, l1, rfl, rfl, hm, ?_⟩
          simp [PutPassword, hd, assertAuthUser, hid, callMatchPasswordByUuids, hm,
            callVerifyPasswordComplexity, hv, slogWarn]

/-- The three possible call traces of `PostToken`. -/
theorem PostToken_trace (x : Externals) (h : Handle σ) (w : http.ResponseWriter)
    (r : http.Request) (s : World σ) :
    (PostToken x h w r s).world.calls = s.calls ∨
    (∃ p : Option login.AuthUser,
      (PostToken x h w r s).world.calls = s.calls ++ [.CreateAccessToken p]) ∨
    (∃ (p : Option login.AuthUser) (t : IdmToken) (l1 : σ),
      r.Context.Value = .AuthUserPtr p ∧
      h.jwtService.CreateAccessToken p s.leaf = ((t, none), l1) ∧
      (PostToken x h w r s).world.calls
        = s.calls ++ [.CreateAccessToken p, .CreateRefreshToken p]) := by
  cases hid : r.Context.Value with
  | nil => left; simp [PostToken, assertAuthUser, hid, slogError]
  | other d => left; simp [PostToken, assertAuthUser, hid, slogError]
  | AuthUserPtr p =>
    rcases ha : h.jwtService.CreateAccessToken p s.leaf with ⟨⟨t, _ | ae⟩, l1⟩
    swap
    · right; left
      exact ⟨p, by simp [PostToken, assertAuthUser, hid, callCreateAccessToken, ha, slogError]⟩
    right; right
    refine ⟨p, t, l1, rfl, ha, ?_⟩
    rcases hr : h.jwtService.CreateRefreshToken p l1 with ⟨⟨t2, _ | re⟩, l2⟩ <;>
      simp [PostToken, assertAuthUser, hid, callCreateAccessToken, ha, callCreateRefreshToken,
        hr, slogError]

/-- C10: the collaborators are consulted in a fixed order, each at most once,
stopping at the first failure.  For every request, the calls `PutPassword`
makes are appended to the trace and their methods form an initial segment of
[MatchPasswordByUuids, VerifyPasswordComplexity, UpdatePassword]; the calls
`PostToken` makes form an initial segment of [CreateAccessToken,
CreateRefreshToken]; `VerifyPasswordComplexity` is called only when
`MatchPasswordByUuids` returned a match without error; `UpdatePassword` is
called only when moreover `VerifyPasswordComplexity` returned no error;
`CreateRefreshToken` is called only when `CreateAccessToken` returned no error;
and no method is called more than once. -/
theorem leaves_in_fixed_order (x : Externals) (h : Handle σ) (w : http.ResponseWriter)
    (r : http.Request) (s : World σ) :
    ((PutPassword x h w r s).world.calls = s.calls ++ callsMade s (PutPassword x h w r s) ∧
      (callsMade s (PutPassword x h w r s)).map LeafCall.leaf
        <+: [.MatchPasswordByUuids, .VerifyPasswordComplexity, .UpdatePassword]) ∧
    ((PostToken x h w r s).world.calls = s.calls ++ callsMade s (PostToken x h w r s) ∧
      (callsMade s (PostToken x h w r s)).map LeafCall.leaf
        <+: [.CreateAccessToken, .CreateRefreshToken]) ∧
    (Leaf.VerifyPasswordComplexity ∈ (callsMade s (PutPassword x h w r s)).map LeafCall.leaf →
      ∃ (u : login.AuthUser) (data : PutPasswordJSONRequestBody) (l1 : σ),
        x.DecodeJSON r.Body = (data, none) ∧
        r.Context.Value = .AuthUserPtr (some u) ∧
        h.authLoginService.MatchPasswordByUuids r.Context
            { UserUuid := u.UserUUID, Password := data.CurrentPassword } s.leaf
          = ((true, none), l1)) ∧
    (Leaf.UpdatePassword ∈ (callsMade s (PutPassword x h w r s)).map LeafCall.leaf →
      ∃ (u : login.AuthUser) (data : PutPasswordJSONRequestBody) (l1 l2 : σ),
        x.DecodeJSON r.Body = (data, none) ∧
        r.Context.Value = .AuthUserPtr (some u) ∧
        h.authLoginService.MatchPasswordByUuids r.Context
            { UserUuid := u.UserUUID, Password := data.CurrentPassword } s.leaf
          = ((true, none), l1) ∧
        h.authLoginService.VerifyPasswordComplexity r.Context data.NewPassword l1
          = (none, l2)) ∧
    (Leaf.CreateRefreshToken ∈ (callsMade s (PostToken x h w r s)).map LeafCall.leaf →
      ∃ (p : Option login.AuthUser) (t : IdmToken) (l1 : σ),
        r.Context.Value = .AuthUserPtr p ∧
        h.jwtService.CreateAccessToken p s.leaf = ((t, none), l1)) ∧
    (∀ l : Leaf, callCount l (callsMade s (PutPassword x h w r s)) ≤ 1) ∧
    (∀ l : Leaf, callCount l (callsMade s (PostToken x h w r s)) ≤ 1) := by
  have hput : ((PutPassword x h w r s).world.calls
        = s.calls ++ callsMade s (PutPassword x h w r s) ∧
      (callsMade s (PutPassword x h w r s)).map LeafCall.leaf
        <+: [.MatchPasswordByUuids, .VerifyPasswordComplexity, .UpdatePassword]) ∧
      (Leaf.VerifyPasswordComplexity
          ∈ (callsMade s (PutPassword x h w r s)).map LeafCall.leaf →
        ∃ (u : login.AuthUser) (data : PutPasswordJSONRequestBody) (l1 : σ),
          x.DecodeJSON r.Body = (data, none) ∧
          r.Context.Value = .AuthUserPtr (some u) ∧
          h.authLoginService.MatchPasswordByUuids r.Context
              { UserUuid := u.UserUUID, Password := data.CurrentPassword } s.leaf
            = ((true, none), l1)) ∧
      (Leaf.UpdatePassword ∈ (callsMade s (PutPassword x h w r s)).map LeafCall.leaf →
        ∃ (u : login.AuthUser) (data : PutPasswordJSONRequestBody) (l1 l2 : σ),
          x.DecodeJSON r.Body = (data, none) ∧
          r.Context.Value = .AuthUserPtr (some u) ∧
          h.authLoginService.MatchPasswordByUuids r.Context
              { UserUuid := u.UserUUID, Password := data.CurrentPassword } s.leaf
            = ((true, none), l1) ∧
          h.authLoginService.VerifyPasswordComplexity r.Context data.NewPassword l1
            = (none, l2)) ∧
      (∀ l : Leaf, callCount l (callsMade s (PutPassword x h w r s)) ≤ 1) := by
    rcases PutPassword_trace x h w r s with hc | ⟨u, data, hc⟩ | ⟨u, data, l1, hd, hid, hm, hc⟩ |
      ⟨u, data, l1, l2, hd, hid, hm, hv, hc⟩
    · have hm0 := callsMade_of_append s _ [] (by simpa using hc)
      rw [hm0]
      refine ⟨⟨by simpa using hc, by simp⟩, by simp, by simp, ?_⟩
      intro l; simp [callCount]
    · have hm0 := callsMade_of_append s _ _ hc
      rw [hm0]
      refine ⟨⟨hc, ⟨[.VerifyPasswordComplexity, .UpdatePassword], rfl⟩⟩, ?_, ?_, ?_⟩
      · simp [LeafCall.leaf]
      · simp [LeafCall.leaf]
      · intro l; cases l <;> simp [callCount, LeafCall.leaf]
    · have hm0 := callsMade_of_append s _ _ hc
      rw [hm0]
      refine ⟨⟨hc, ⟨[.UpdatePassword], rfl⟩⟩, ?_, ?_, ?_⟩
      · intro _; exact ⟨u, data, l1, hd, hid, hm⟩
      · simp [LeafCall.leaf]
      · intro l; cases l <;> simp [callCount, LeafCall.leaf]
    · have hm0 := callsMade_of_append s _ _ hc
      rw [hm0]
      refine ⟨⟨hc, ⟨[], rfl⟩⟩, ?_, ?_, ?_⟩
      · intro _; exact ⟨u, data, l1, hd, hid, hm⟩
      · intro _; exact ⟨u, data, l1, l2, hd, hid, hm, hv⟩
      · intro l; cases l <;> simp [callCount, LeafCall.leaf]
  have hpost : ((PostToken x h w r s).world.calls
        = s.calls ++ callsMade s (PostToken x h w r s) ∧
      (callsMade s (PostToken x h w r s)).map LeafCall.leaf
        <+: [.CreateAccessToken, .CreateRefreshToken]) ∧
      (Leaf.CreateRefreshToken ∈ (callsMade s (PostToken x h w r s)).map LeafCall.leaf →
        ∃ (p : Option login.AuthUser) (t : IdmToken) (l1 : σ),
          r.Context.Value = .AuthUserPtr p ∧
          h.jwtService.CreateAccessToken p s.leaf = ((t, none), l1)) ∧
      (∀ l : Leaf, callCount l (callsMade s (PostToken x h w r s)) ≤ 1) := by
    rcases PostToken_trace x h w r s with hc | ⟨p, hc⟩ | ⟨p, t, l1, hid, ha, hc⟩
    · have hm0 := callsMade_of_append s _ [] (by simpa using hc)
      rw [hm0]
      refine ⟨⟨by simpa using hc, by simp⟩, by simp, ?_⟩
      intro l; simp [callCount]
    · have hm0 := callsMade_of_append s _ _ hc
      rw [hm0]
      refine ⟨⟨hc, ⟨[.CreateRefreshToken], rfl⟩⟩, ?_, ?_⟩
      · simp [LeafCall.leaf]
      · intro l; cases l <;> simp [callCount, LeafCall.leaf]
    · have hm0 := callsMade_of_append s _ _ hc
      rw [hm0]
      refine ⟨⟨hc, ⟨[], rfl⟩⟩, ?_, ?_⟩
      · intro _; exact ⟨p, t, l1, hid, ha⟩
      · intro l; cases l <;> simp [callCount, LeafCall.leaf]
  exact ⟨hput.1, hpost.1, hput.2.1, hput.2.2.1, hpost.2.1, hput.2.2.2, hpost.2.2⟩

theorem leaves_in_fixed_order_witness :
    ((callsMade demo.world
        (PutPassword demo.externals demo.handle demo.w0 (demo.request "old,New$Pass1")
          demo.world)).map LeafCall.leaf
      <+: [.MatchPasswordByUuids, .VerifyPasswordComplexity, .UpdatePassword]) ∧
    (∃ (u : login.AuthUser) (data : PutPasswordJSONRequestBody) (l1 l2 : demo.State),
      demo.externals.DecodeJSON (demo.request "old,New$Pass1").Body = (data, none) ∧
      (demo.request "old,New$Pass1").Context.Value = .AuthUserPtr (some u) ∧
      demo.handle.authLoginService.MatchPasswordByUuids (demo.request "old,New$Pass1").Context
          { UserUuid := u.UserUUID, Password := data.CurrentPassword } demo.world.leaf
        = ((true, none), l1) ∧
      demo.handle.authLoginService.VerifyPasswordComplexity
          (demo.request "old,New$Pass1").Context data.NewPassword l1
        = (none, l2)) ∧
    (∃ (p : Option login.AuthUser) (t : IdmToken) (l1 : demo.State),
      (demo.request "old,New$Pass1").Context.Value = .AuthUserPtr p ∧
      demo.handle.jwtService.CreateAccessToken p demo.world.leaf = ((t, none), l1)) :=
  have t := leaves_in_fixed_order demo.externals demo.handle demo.w0
    (demo.request "old,New$Pass1") demo.world
  ⟨t.1.2, t.2.2.2.1 (by decide), t.2.2.2.2.1 (by decide)⟩

end auth
